import Mathlib

/-!
Verification development for the FastMCP server framework
(`src/fastmcp/src/FastMCP.ts`).  The definitions below are shallow
embeddings of the corresponding TypeScript functions; each definition's
doc comment names the source location it is translated from.
-/

namespace FastMCPModel

/-! ## Content model (FastMCP.ts lines 236-368)

Typed content items and the result envelope, mirroring
`TextContentZodSchema`, `ImageContentZodSchema`, `AudioContentZodSchema`,
`ResourceContentZodSchema`, `ResourceLinkZodSchema` and
`ContentResultZodSchema`. -/

/-- A typed content item (`Content` union in FastMCP.ts). -/
inductive Content where
  | text (text : String)
  | image (data : String) (mimeType : String)
  | audio (data : String) (mimeType : String)
  | resource (uri : String) (textBody : Option String) (blobBody : Option String)
      (mimeType : Option String)
  | resourceLink (uri : String) (name : String)
deriving DecidableEq, Repr

/-- The normalized result envelope (`ContentResult` in FastMCP.ts):
a list of typed content items plus an optional error flag. -/
structure ContentResult where
  content : List Content
  isError : Option Bool
deriving DecidableEq, Repr

/-! ## Tool registry entries (FastMCP.ts `Tool` type, lines 820-906)

`paramsCheck` models the optional standard-schema parameter contract
(`tool.parameters`, consulted at FastMCP.ts lines 1663-1685): given the raw
arguments it either succeeds or produces the formatted issue list.
`canAccess` models the optional access predicate (`tool.canAccess`,
consulted at FastMCP.ts lines 2226-2230).  Auth values are abstracted as
strings. -/

/-- One registered tool. -/
structure Tool where
  name : String
  paramsCheck : Option (String → Except String Unit)
  timeoutMs : Option Nat
  canAccess : Option (String → Bool)

/-- A value returned by a tool's `execute`, as discriminated by the
normalization branches at FastMCP.ts lines 1821-1835: `undefined`, `null`,
a plain string, an object carrying a `type` field (a valid content item, or
one failing the content schema), or any other object (a valid envelope, or
one failing the envelope schema). -/
inductive ToolReturn where
  | undef
  | nullv
  | str (s : String)
  | item (c : Content)
  | invalidItem (tag : String)
  | envelope (r : ContentResult)
  | invalidEnvelope (tag : String)
deriving DecidableEq, Repr

/-- Outcome of awaiting the tool's `execute` promise: it settles after
`duration` milliseconds by returning a value, rejecting with a `UserError`,
or rejecting with any other error (carrying its message). -/
inductive ExecOutcome where
  | returns (v : ToolReturn) (duration : Nat)
  | throwsUser (msg : String) (duration : Nat)
  | throwsOther (msg : String) (duration : Nat)
deriving DecidableEq, Repr

/-- Milliseconds until the execute promise settles. -/
def ExecOutcome.duration : ExecOutcome → Nat
  | .returns _ d => d
  | .throwsUser _ d => d
  | .throwsOther _ d => d

/-- Protocol-level error codes used by the call-tool handler
(`ErrorCode.MethodNotFound`, `ErrorCode.InvalidParams`). -/
inductive McpErrorKind where
  | methodNotFound
  | invalidParams
deriving DecidableEq, Repr

/-- A protocol-level `McpError` (propagated to the client as a structured
protocol failure, not as a flagged tool result). -/
structure McpErr where
  kind : McpErrorKind
  message : String
deriving DecidableEq, Repr

/-- `Unknown tool: <name>` (FastMCP.ts lines 1654-1659). -/
def unknownToolMsg (name : String) : String := s!"Unknown tool: {name}"

/-- `Tool '<name>' parameter validation failed: ...` (FastMCP.ts lines
1678-1681). -/
def invalidParamsMsg (name friendly : String) : String :=
  s!"Tool \x27{name}\x27 parameter validation failed: {friendly}. Please check the parameter types and values according to the tool\x27s schema."

/-- `Tool '<name>' execution failed: <message>` (FastMCP.ts lines
1846-1854). -/
def execFailedMsg (name msg : String) : String :=
  s!"Tool \x27{name}\x27 execution failed: {msg}"

/-- The `UserError` message produced when the timeout timer fires
(FastMCP.ts lines 1794-1800).  Written as an explicit concatenation of the
template literal's pieces. -/
def timeoutMsg (name : String) (t : Nat) : String :=
  "Tool \x27" ++ name ++ "\x27 " ++ "timed out" ++
    (" after " ++ toString t ++ "ms. Consider increasing timeoutMs or optimizing the tool implementation.")

/-- Result normalization, FastMCP.ts lines 1821-1835: `undefined`/`null`
becomes an empty content list; a string becomes one text item; a value with
a `type` field is wrapped in a one-item list; anything else is parsed
against the envelope schema.  A schema violation makes
`ContentResultZodSchema.parse` throw, modelled as `Except.error`. -/
def normalizeToolResult : ToolReturn → Except String ContentResult
  | .undef => .ok ⟨[], none⟩
  | .nullv => .ok ⟨[], none⟩
  | .str s => .ok ⟨[Content.text s], none⟩
  | .item c => .ok ⟨[c], none⟩
  | .invalidItem tag => .error s!"invalid content item: {tag}"
  | .envelope r => .ok r
  | .invalidEnvelope tag => .error s!"invalid content result: {tag}"

/-- The `Promise.race` against the timeout timer, FastMCP.ts lines
1789-1815: the guard `tool.timeoutMs ?` (line 1790) tests JavaScript
truthiness, so both an undefined and a zero `timeoutMs` run the execute
promise with no race at all.  With a non-zero timeout `t`, if the execute
promise takes longer than `t` to settle the race rejects with the timeout
`UserError`; otherwise the promise's own outcome wins. -/
def raceWithTimeout (name : String) (timeoutMs : Option Nat)
    (exec : ExecOutcome) : ExecOutcome :=
  match timeoutMs with
  | none => exec
  | some t =>
    if t = 0 then exec
    else if t < exec.duration then .throwsUser (timeoutMsg name t) t else exec

/-- The body of the `try`/`catch` at FastMCP.ts lines 1691-1855 after the
tool has been found and its parameters validated: race the execution
against the timeout, normalize the settled value; a `UserError` (thrown by
the tool or by the timeout) becomes a flagged result carrying its message;
any other thrown error (including a result-schema violation) becomes a
flagged `execution failed` result.  This never produces a protocol-level
failure. -/
def runExec (name : String) (timeoutMs : Option Nat) (exec : ExecOutcome) :
    ContentResult :=
  match raceWithTimeout name timeoutMs exec with
  | .returns v _ =>
    match normalizeToolResult v with
    | .ok r => r
    | .error zodMsg => ⟨[Content.text (execFailedMsg name zodMsg)], some true⟩
  | .throwsUser m _ => ⟨[Content.text m], some true⟩
  | .throwsOther m _ => ⟨[Content.text (execFailedMsg name m)], some true⟩

/-- The `CallToolRequestSchema` handler, FastMCP.ts lines 1651-1858:
look the tool up by name (protocol `MethodNotFound` when absent), validate
parameters when a contract is declared (protocol `InvalidParams` on
failure), then execute with timeout racing and result normalization.
`exec` stands for the behavior of the matched tool's `execute` promise. -/
def callToolHandler (tools : List Tool) (reqName rawArgs : String)
    (exec : ExecOutcome) : Except McpErr ContentResult :=
  match tools.find? (fun t => t.name == reqName) with
  | none => .error ⟨.methodNotFound, unknownToolMsg reqName⟩
  | some tool =>
    match tool.paramsCheck with
    | some check =>
      match check rawArgs with
      | .error friendly => .error ⟨.invalidParams, invalidParamsMsg reqName friendly⟩
      | .ok _ => .ok (runExec reqName tool.timeoutMs exec)
    | none => .ok (runExec reqName tool.timeoutMs exec)

/-! ## Execution-context notifications (FastMCP.ts lines 1692-1713 and
1757-1780)

`reportProgress` and `streamContent` wrap the transport notification in a
`try`/`catch`: a notification failure is logged as a warning and swallowed,
so the promise handed to the tool always resolves. `notifyResult` stands
for the outcome of `this.#server.notification(...)`. -/

/-- `reportProgress` from the call-tool handler: returns the warning log
entries it emits together with the (always successful) outcome seen by the
awaiting tool. -/
def reportProgressCall (toolName : String)
    (notifyResult : Except String Unit) : List String × Except String Unit :=
  match notifyResult with
  | .ok _ => ([], .ok ())
  | .error e =>
    ([s!"[FastMCP warning] Failed to report progress for tool \x27{toolName}\x27: {e}"],
      .ok ())

/-- `streamContent` from the call-tool handler: a single content item is
wrapped into a one-item array before notification; a notification failure
is logged as a warning and swallowed. Returns the array sent, the warning
log entries, and the (always successful) outcome seen by the tool. -/
def streamContentCall (toolName : String) (content : Sum Content (List Content))
    (notifyResult : Except String Unit) :
    List Content × List String × Except String Unit :=
  let contentArray := match content with
    | .inl c => [c]
    | .inr cs => cs
  match notifyResult with
  | .ok _ => (contentArray, [], .ok ())
  | .error e =>
    (contentArray,
      [s!"[FastMCP warning] Failed to stream content for tool \x27{toolName}\x27: {e}"],
      .ok ())

/-! ## Session connection state machine (FastMCP.ts lines 939, 1053-1162)

`#connectionState` starts as `connecting`; `connect` first throws
`UnexpectedStateError` when `this.#server.transport` is already set,
otherwise assigns `connecting`, then `ready` on handshake success or
`error` on handshake failure; `close` assigns `closed`.  `transportBound`
models `this.#server.transport`: the underlying protocol engine binds the
transport as soon as `server.connect` is invoked (also when the handshake
subsequently fails), and its `close()` closes the transport, whose
`onclose` handler clears the binding back to undefined — so `close`
unbinds the transport and leaves the session reconnectable. -/

/-- The `#connectionState` values. -/
inductive ConnState where
  | connecting
  | ready
  | error
  | closed
deriving DecidableEq, Repr

/-- Observable session lifecycle state. -/
structure SessionState where
  connectionState : ConnState
  transportBound : Bool
deriving DecidableEq, Repr

/-- A freshly constructed `FastMCPSession` (field initializer at
FastMCP.ts line 939). -/
def initialSession : SessionState := ⟨.connecting, false⟩

/-- Operations a caller can perform on the session lifecycle:
`connect` (with the handshake outcome) and `close`. -/
inductive SessOp where
  | connect (handshakeOk : Bool)
  | close
deriving DecidableEq, Repr

/-- One operation: returns the new state together with the trace of
`#connectionState` assignments it performed (a throwing `connect` on an
already-bound transport performs none; `close` unbinds the transport via
the protocol engine's `onclose`). -/
def stepOp (s : SessionState) : SessOp → SessionState × List ConnState
  | .connect handshakeOk =>
    if s.transportBound then (s, [])
    else if handshakeOk then (⟨.ready, true⟩, [.connecting, .ready])
    else (⟨.error, true⟩, [.connecting, .error])
  | .close => (⟨.closed, false⟩, [.closed])

/-- Run a sequence of operations, collecting the assignment trace. -/
def runOps (s : SessionState) : List SessOp → SessionState × List ConnState
  | [] => (s, [])
  | op :: ops =>
    let r1 := stepOp s op
    let r2 := runOps r1.1 ops
    (r2.1, r1.2 ++ r2.2)

/-! ## Server session tracking (FastMCP.ts lines 2116-2198, 2446-2455)

Sessions are identified abstractly by numbers.  In stateless HTTP mode the
`onConnect`/`onClose` callbacks do not touch `this.#sessions`; in
session-affinity mode `onConnect` pushes the session and `onClose` removes
it with `indexOf` + `splice` (first occurrence, no-op when absent). -/

/-- Stateless mode request handling (FastMCP.ts lines 2116-2153): a fresh
session is created for the request but never added to `#sessions`. -/
def statelessHandleRequest (sessions : List Nat) (_newSession : Nat) :
    List Nat := sessions

/-- N independent stateless requests in sequence. -/
def statelessHandleRequests (sessions : List Nat) : List Nat → List Nat
  | [] => sessions
  | s :: rest => statelessHandleRequests (statelessHandleRequest sessions s) rest

/-- Session-affinity `onConnect` (FastMCP.ts lines 2178-2186):
`this.#sessions.push(session)`. -/
def affinityOnConnect (sessions : List Nat) (s : Nat) : List Nat :=
  sessions ++ [s]

/-- Session-affinity `onClose` (FastMCP.ts lines 2169-2177):
`indexOf` + `splice(index, 1)`, removing the first occurrence when
present. -/
def affinityOnClose (sessions : List Nat) (s : Nat) : List Nat :=
  match sessions with
  | [] => []
  | x :: xs => if x = s then xs else x :: affinityOnClose xs s

/-! ## Access-controlled tool sets (FastMCP.ts lines 2048-2087, 2225-2245)

`#createSession` (used by both HTTP modes) filters the registry through
each tool's `canAccess` predicate when a truthy auth value was resolved;
with no auth value the registry is passed unfiltered.  The stdio branch of
`start` constructs its session directly with `tools: this.#tools`, without
any filtering.  A session's tool list is what its list-tools handler
returns and what its call-tool handler searches (lines 1630-1652). -/

/-- The tool list given to a session by `FastMCP.#createSession`. -/
def createSessionTools (tools : List Tool) (auth : Option String) :
    List Tool :=
  match auth with
  | some a =>
    tools.filter (fun t =>
      match t.canAccess with
      | some p => p a
      | none => true)
  | none => tools

/-- The tool list given to the stdio session by `FastMCP.start`
(FastMCP.ts line 2079): the registry, unfiltered. -/
def startStdioSessionTools (tools : List Tool) (_auth : Option String) :
    List Tool := tools

/-! ## Runtime configuration resolution (FastMCP.ts lines 2364-2444) -/

/-- Explicit start-up options passed to `FastMCP.start`
(`overrides.transportType` and `overrides.httpStream`). -/
structure RuntimeOverrides where
  transportType : Option String
  port : Option Nat
  endpoint : Option String
  host : Option String
  stateless : Option Bool
deriving Repr

/-- The `FASTMCP_*` environment variables read by `#parseRuntimeConfig`. -/
structure EnvVars where
  transport : Option String
  port : Option String
  endpoint : Option String
  stateless : Option String
  host : Option String
deriving Repr

/-- No explicit overrides. -/
def noOverrides : RuntimeOverrides := ⟨none, none, none, none, none⟩

/-- No environment variables set. -/
def emptyEnv : EnvVars := ⟨none, none, none, none, none⟩

/-- `getArg` (FastMCP.ts lines 2389-2395): the value following the first
occurrence of `--<name>` in the argument list, if any. -/
def getArg (args : List String) (flag : String) : Option String :=
  match args with
  | [] => none
  | a :: rest => if a = flag then rest.head? else getArg rest flag

/-- JavaScript truthiness of an optional string (`undefined` and `""` are
falsy). -/
def jsTruthy (o : Option String) : Option String :=
  match o with
  | some s => if s = "" then none else some s
  | none => none

/-- The `a || b || c || "default"` chain used for each string-valued
configuration field. -/
def resolveStr (explicitVal cliVal envVal : Option String) (dflt : String) :
    String :=
  match jsTruthy explicitVal with
  | some s => s
  | none =>
    match jsTruthy cliVal with
    | some s => s
    | none =>
      match jsTruthy envVal with
      | some s => s
      | none => dflt

/-- Digit run to a number. -/
def digitsToNat (ds : List Char) : Nat :=
  ds.foldl (fun a c => a * 10 + (c.toNat - 48)) 0

/-- JavaScript `parseInt` restricted to what `#parseRuntimeConfig` feeds
it: optional sign followed by leading decimal digits; `none` models
`NaN`. -/
def jsParseInt (s : String) : Option Int :=
  match s.toList with
  | '-' :: rest =>
    let d := rest.takeWhile Char.isDigit
    if d.isEmpty then none else some (-(digitsToNat d : Int))
  | '+' :: rest =>
    let d := rest.takeWhile Char.isDigit
    if d.isEmpty then none else some (digitsToNat d : Int)
  | cs =>
    let d := cs.takeWhile Char.isDigit
    if d.isEmpty then none else some (digitsToNat d : Int)

/-- The resolved transport configuration (`#parseRuntimeConfig`'s return
value).  `port` is `none` when `parseInt` produced `NaN`. -/
inductive RuntimeConfig where
  | stdio
  | httpStream (endpoint : String) (host : String) (port : Option Int)
      (stateless : Bool)
deriving DecidableEq, Repr

/-- The port resolution (FastMCP.ts lines 2416-2418):
`parseInt(overrides?.httpStream?.port?.toString() || portArg || envPort ||
"8080")`.  An explicit numeric port is rendered with `toString()` before
the truthiness chain, so even port `0` (rendered `"0"`) wins. -/
def resolvePort (ovPort : Option Nat) (cliPort envPort : Option String) :
    Option Int :=
  jsParseInt (resolveStr (ovPort.map (fun n => toString n)) cliPort envPort "8080")

/-- The stateless-flag resolution (FastMCP.ts lines 2425-2429):
`overrides?.httpStream?.stateless || statelessArg === "true" ||
envStateless === "true" || false`.  An explicit `false` is falsy and falls
through to the CLI flag and environment variable. -/
def resolveStateless (ovStateless : Option Bool)
    (cliStateless envStateless : Option String) : Bool :=
  match ovStateless with
  | some true => true
  | _ => cliStateless == some "true" || envStateless == some "true"

/-- `#parseRuntimeConfig` (FastMCP.ts lines 2364-2444): resolve the
transport type through `overrides || cli || env || "stdio"` (with the CLI
spelling `http-stream` mapped to `httpStream`), then, for the HTTP
transport, resolve port, host, endpoint and the stateless flag. -/
def parseRuntimeConfig (overrides : Option RuntimeOverrides)
    (args : List String) (env : EnvVars) : RuntimeConfig :=
  let ov := overrides.getD noOverrides
  let transportArg := getArg args "--transport"
  let portArg := getArg args "--port"
  let endpointArg := getArg args "--endpoint"
  let statelessArg := getArg args "--stateless"
  let hostArg := getArg args "--host"
  let transportType := resolveStr ov.transportType
    (transportArg.map (fun s => if s = "http-stream" then "httpStream" else s))
    env.transport "stdio"
  if transportType = "httpStream" then
    RuntimeConfig.httpStream
      (resolveStr ov.endpoint endpointArg env.endpoint "/mcp")
      (resolveStr ov.host hostArg env.host "localhost")
      (resolvePort ov.port portArg env.port)
      (resolveStateless ov.stateless statelessArg env.stateless)
  else
    RuntimeConfig.stdio

/-! ## URI / template machinery (FastMCP.ts lines 1478-1521, 1981-2025)

String mechanics are carried out on `List Char` so that every function is
structurally recursive and kernel-evaluable. -/

/-- The `\x7b` character. -/
def lbrace : Char := Char.ofNat 123

/-- The `\x7d` character. -/
def rbrace : Char := Char.ofNat 125

/-- JavaScript `String.prototype.split` with a one-character separator:
`"".split(sep) = [""]`, `"/".split("/") = ["", ""]`. -/
def splitOnChar (sep : Char) : List Char → List (List Char)
  | [] => [[]]
  | c :: cs =>
    match splitOnChar sep cs with
    | [] => if c = sep then [[], []] else [[c]]
    | h :: t => if c = sep then [] :: h :: t else (c :: h) :: t

/-- `String.prototype.startsWith` on character lists. -/
def listStartsWith : List Char → List Char → Bool
  | [], _ => true
  | _ :: _, [] => false
  | p :: ps, c :: cs => p == c && listStartsWith ps cs

/-- `String.prototype.endsWith` on character lists. -/
def listEndsWith (suffix s : List Char) : Bool :=
  listStartsWith suffix.reverse s.reverse

/-- Whether a `/`-delimited template segment is a whole-segment placeholder
(`templatePart.startsWith("\x7b") && templatePart.endsWith("\x7d")`,
FastMCP.ts line 1994). -/
def isWholePlaceholder (tp : List Char) : Bool :=
  listStartsWith [lbrace] tp && listEndsWith [rbrace] tp

/-- `templatePart.slice(1, -1)` (FastMCP.ts line 1995). -/
def placeholderName (tp : List Char) : String :=
  ((tp.drop 1).dropLast).asString

/-- The positional alignment loop of `FastMCP.embedded` (FastMCP.ts lines
1991-2002): walk the `/`-split template segments, and for each
whole-segment placeholder record the same-index URI segment when it is a
non-empty (truthy) string. -/
def alignParams : List (List Char) → List (List Char) → List (String × String)
  | [], _ => []
  | tp :: tps, ups =>
    let rest := alignParams tps ups.tail
    if isWholePlaceholder tp then
      match ups.head? with
      | some v => if v.isEmpty then rest else (placeholderName tp, v.asString) :: rest
      | none => rest
    else rest

/-- The template-matching step of `FastMCP.embedded` (FastMCP.ts lines
1981-2002): the template matches when the URI starts with the template's
literal prefix (`template.uriTemplate.split("\x7b")[0]`); the placeholder
map is then extracted by splitting both strings on `/` and aligning
whole-segment placeholders positionally.  `none` means the template does
not match. -/
def embeddedExtractParams (uriTemplate uri : String) :
    Option (List (String × String)) :=
  let base := (splitOnChar lbrace uriTemplate.toList).headD []
  if listStartsWith base uri.toList then
    some (alignParams (splitOnChar '/' uriTemplate.toList)
      (splitOnChar '/' uri.toList))
  else none

/-- Modelled from the spec: the read-resource handler (FastMCP.ts lines
1488-1501) delegates matching to the `uri-templates` dependency
(`parseURITemplate(...).fromUri(...)`), whose source is not part of this
repository.  RFC 6570 matching is modelled here for templates with exactly
one `\x7bname\x7d` expression: the URI must carry the template's literal
prefix and suffix, and the placeholder captures the (slash-free) middle. -/
def uriTemplateFromUri (uriTemplate uri : String) :
    Option (List (String × String)) :=
  match splitOnChar lbrace uriTemplate.toList with
  | [pre, rest] =>
    match splitOnChar rbrace rest with
    | [varName, suffix] =>
      let u := uri.toList
      if listStartsWith pre u && listEndsWith suffix u &&
          decide (pre.length + suffix.length ≤ u.length) then
        let middle := (u.drop pre.length).take (u.length - pre.length - suffix.length)
        if middle.contains '/' then none
        else some [(varName.asString, middle.asString)]
      else none
    | _ => none
  | _ => none

/-- Modelled from the spec: `uriTemplate.fill(match)` of the
`uri-templates` dependency (FastMCP.ts line 1499), for single-placeholder
templates: substitute the matched value back into the template. -/
def uriTemplateFill (uriTemplate : String) (params : List (String × String)) :
    String :=
  match splitOnChar lbrace uriTemplate.toList with
  | [pre, rest] =>
    match splitOnChar rbrace rest with
    | [varName, suffix] =>
      pre.asString ++ ((params.lookup varName.asString).getD "") ++ suffix.asString
    | _ => uriTemplate
  | _ => uriTemplate

/-- Registered resource template (URI template plus name). -/
structure ResourceTemplateEntry where
  uriTemplate : String
  name : String

/-- The template-fallback loop of the `ReadResourceRequestSchema` handler
(FastMCP.ts lines 1488-1513): try each registered template in order with
`fromUri`; on the first match, `load` is invoked with the extracted
argument map and each returned content body's URI defaults to
`uriTemplate.fill(match)` (`resource.uri ?? uri`).  `loadResultUri` stands
for the optional `uri` override on the load result. -/
def readResourceTemplates (templates : List ResourceTemplateEntry)
    (reqUri : String) (loadResultUri : Option String) :
    Option (List (String × String) × String) :=
  match templates with
  | [] => none
  | t :: rest =>
    match uriTemplateFromUri t.uriTemplate reqUri with
    | some args => some (args, loadResultUri.getD (uriTemplateFill t.uriTemplate args))
    | none => readResourceTemplates rest reqUri loadResultUri

/-- Outcome of a read-resource request: an exact resource was read, or a
template matched (with the load arguments and the content URI). -/
inductive ReadResourceOutcome where
  | exact (uri : String)
  | template (loadArgs : List (String × String)) (contentUri : String)
deriving DecidableEq, Repr

/-- The `ReadResourceRequestSchema` handler (FastMCP.ts lines 1478-1521):
exact URI lookup first; then the template fallback; an unmatched URI is a
protocol-level not-found error listing every registered exact URI. -/
def readResourceDispatch (resourceUris : List String)
    (templates : List ResourceTemplateEntry) (reqUri : String)
    (loadResultUri : Option String) : Except String ReadResourceOutcome :=
  if resourceUris.contains reqUri then .ok (.exact reqUri)
  else
    match readResourceTemplates templates reqUri loadResultUri with
    | some r => .ok (.template r.1 r.2)
    | none =>
      let avail :=
        if resourceUris.isEmpty then "none"
        else String.intercalate ", " resourceUris
      .error s!"Resource not found: \x27{reqUri}\x27. Available resources: {avail}"

/-! ## Content codecs (FastMCP.ts lines 64-200)

`imageContent`/`audioContent` after the bytes have been ingested: sniff
the MIME type from the byte content (`fileTypeFromBuffer`, modelled by the
`sniffedMime` argument), warn when nothing was detected or the top-level
category mismatches, then base64-encode the bytes with the sniffed type or
the hard-coded fallback. -/

/-- The base64 alphabet. -/
def base64Chars : List Char :=
  "ABCDEFGHIJKLMNOPQRSTUVWXYZabcdefghijklmnopqrstuvwxyz0123456789+/".toList

/-- Character for a 6-bit group. -/
def base64CharAt (n : Nat) : Char := base64Chars.getD n 'A'

/-- `Buffer.prototype.toString("base64")`: RFC 4648 base64 with padding,
over a byte list. -/
def base64Encode : List Nat → String
  | [] => ""
  | [b1] =>
    ([base64CharAt (b1 / 4), base64CharAt (b1 % 4 * 16)]).asString ++ "=="
  | [b1, b2] =>
    ([base64CharAt (b1 / 4), base64CharAt (b1 % 4 * 16 + b2 / 16),
      base64CharAt (b2 % 16 * 4)]).asString ++ "="
  | b1 :: b2 :: b3 :: rest =>
    ([base64CharAt (b1 / 4), base64CharAt (b1 % 4 * 16 + b2 / 16),
      base64CharAt (b2 % 16 * 4 + b3 / 64), base64CharAt (b3 % 64)]).asString ++
      base64Encode rest

/-- The warning emitted by `imageContent` (FastMCP.ts lines 109-115);
`detected` is `mimeType?.mime || "unknown"`. -/
def imageWarnMsg (detected : String) : String :=
  s!"Warning: Content may not be a valid image. Detected MIME: {detected}"

/-- The warning emitted by `audioContent` (FastMCP.ts lines 178-184). -/
def audioWarnMsg (detected : String) : String :=
  s!"Warning: Content may not be a valid audio file. Detected MIME: {detected}"

/-- `imageContent` after ingestion (FastMCP.ts lines 106-123): warn unless
a MIME type was sniffed and starts with `image/`; always return the
base64-encoded bytes with the sniffed type or the `"image/png"`
fallback. -/
def imageContentCore (sniffedMime : Option String) (rawData : List Nat) :
    List String × Content :=
  let warnLogs :=
    match sniffedMime with
    | some m =>
      if listStartsWith "image/".toList m.toList then []
      else [imageWarnMsg m]
    | none => [imageWarnMsg "unknown"]
  (warnLogs, Content.image (base64Encode rawData) (sniffedMime.getD "image/png"))

/-- `audioContent` after ingestion (FastMCP.ts lines 175-192): warn unless
a MIME type was sniffed and starts with `audio/`; always return the
base64-encoded bytes with the sniffed type or the `"audio/mpeg"`
fallback. -/
def audioContentCore (sniffedMime : Option String) (rawData : List Nat) :
    List String × Content :=
  let warnLogs :=
    match sniffedMime with
    | some m =>
      if listStartsWith "audio/".toList m.toList then []
      else [audioWarnMsg m]
    | none => [audioWarnMsg "unknown"]
  (warnLogs, Content.audio (base64Encode rawData) (sniffedMime.getD "audio/mpeg"))

/-! ## Helper lemmas -/

/-- When the tool is found and declares no parameter contract, the call
handler reduces to the execution/normalization phase. -/
theorem callToolHandler_found {tools : List Tool} {name rawArgs : String}
    {tool : Tool} (exec : ExecOutcome)
    (hfind : tools.find? (fun t => t.name == name) = some tool)
    (hnp : tool.paramsCheck = none) :
    callToolHandler tools name rawArgs exec =
      .ok (runExec name tool.timeoutMs exec) := by
  simp [callToolHandler, hfind, hnp]

/-- When the tool is found and its contract accepts the raw arguments, the
call handler reduces to the execution/normalization phase. -/
theorem callToolHandler_found_valid {tools : List Tool} {name rawArgs : String}
    {tool : Tool} {check : String → Except String Unit} (exec : ExecOutcome)
    (hfind : tools.find? (fun t => t.name == name) = some tool)
    (hchk : tool.paramsCheck = some check) (hok : check rawArgs = .ok ()) :
    callToolHandler tools name rawArgs exec =
      .ok (runExec name tool.timeoutMs exec) := by
  simp [callToolHandler, hfind, hchk, hok]

/-- `Nat.toDigitsCore` never shrinks a non-empty accumulator. -/
theorem toDigitsCore_cons_ne_nil (b : Nat) :
    ∀ (fuel n : Nat) (c : Char) (tl : List Char),
      Nat.toDigitsCore b fuel n (c :: tl) ≠ [] := by
  intro fuel
  induction fuel with
  | zero => intro n c tl; simp [Nat.toDigitsCore]
  | succ f ih =>
    intro n c tl
    simp only [Nat.toDigitsCore]
    split
    · simp
    · exact ih _ _ _

/-- The digit list of a natural number is never empty. -/
theorem toDigits_ne_nil (n : Nat) : Nat.toDigits 10 n ≠ [] := by
  show Nat.toDigitsCore 10 (n + 1) n [] ≠ []
  simp only [Nat.toDigitsCore]
  split
  · simp
  · exact toDigitsCore_cons_ne_nil 10 _ _ _ _

/-- The decimal rendering of a natural number is a non-empty (hence
JavaScript-truthy) string. -/
theorem natToString_ne_empty (n : Nat) : toString n ≠ "" := by
  intro he
  apply toDigits_ne_nil n
  have hs : (Nat.toDigits 10 n).asString = "" := by
    simpa [toString, Nat.repr] using he
  simpa [List.asString, String.ext_iff] using hs

/-- A truthy (non-empty) explicit value wins the `||` chain. -/
theorem resolveStr_explicit {s : String} (hs : s ≠ "")
    (cliVal envVal : Option String) (dflt : String) :
    resolveStr (some s) cliVal envVal dflt = s := by
  simp [resolveStr, jsTruthy, hs]

namespace Claims

/-- C1: for every registered tool, the call-tool handler produces a
normalized result envelope: a returned plain string `s` yields exactly one
text content item with text `s` and no error flag; a returned single
content item is wrapped in a one-item list; `undefined`/`null` yields an
empty content list; a conforming envelope is passed through; a
non-conforming return value fails the envelope schema check (surfacing as
a flagged error result, not an unchecked envelope). -/
theorem c1_result_normalization (tools : List Tool) (name rawArgs : String)
    (tool : Tool)
    (hfind : tools.find? (fun t => t.name == name) = some tool)
    (hnp : tool.paramsCheck = none) (hnt : tool.timeoutMs = none) :
    (∀ s d, callToolHandler tools name rawArgs (.returns (.str s) d) =
      .ok ⟨[Content.text s], none⟩)
    ∧ (∀ c d, callToolHandler tools name rawArgs (.returns (.item c) d) =
      .ok ⟨[c], none⟩)
    ∧ (∀ d, callToolHandler tools name rawArgs (.returns .undef d) =
      .ok ⟨[], none⟩)
    ∧ (∀ d, callToolHandler tools name rawArgs (.returns .nullv d) =
      .ok ⟨[], none⟩)
    ∧ (∀ r d, callToolHandler tools name rawArgs (.returns (.envelope r) d) =
      .ok r)
    ∧ (∀ tag d,
      callToolHandler tools name rawArgs (.returns (.invalidItem tag) d) =
        .ok ⟨[Content.text
          (execFailedMsg name s!"invalid content item: {tag}")], some true⟩)
    ∧ (∀ tag d,
      callToolHandler tools name rawArgs (.returns (.invalidEnvelope tag) d) =
        .ok ⟨[Content.text
          (execFailedMsg name s!"invalid content result: {tag}")], some true⟩) := by
  refine ⟨?_, ?_, ?_, ?_, ?_, ?_, ?_⟩ <;>
    intros <;>
    rw [callToolHandler_found _ hfind hnp] <;>
    simp [runExec, raceWithTimeout, normalizeToolResult, hnt]

/-- C1 witness: the `echo` tool returning the string `"hello"` yields
exactly one text item `"hello"` and no error flag. -/
theorem c1_result_normalization_witness :
    callToolHandler [⟨"echo", none, none, none⟩] "echo" "\x7b\x7d"
      (.returns (.str "hello") 0) =
      .ok ⟨[Content.text "hello"], none⟩ :=
  (c1_result_normalization [⟨"echo", none, none, none⟩] "echo" "\x7b\x7d"
    ⟨"echo", none, none, none⟩ (by rfl) (by rfl) (by rfl)).1 "hello" 0

/-- C2: a `UserError` thrown by a tool's execute becomes a single text item
carrying the error's message with the error flag set; any other thrown
value becomes a single text item reading
`Tool '<name>' execution failed: <message>` with the error flag set.
Neither case raises a protocol-level failure: once the tool is found and
its parameters validate, the handler always answers `.ok`.  Protocol-level
failures arise exactly for an unknown tool name (`MethodNotFound`) and for
a parameter-validation failure (`InvalidParams`). -/
theorem c2_error_taxonomy (tools : List Tool) (name rawArgs : String)
    (tool : Tool)
    (hfind : tools.find? (fun t => t.name == name) = some tool)
    (hnp : tool.paramsCheck = none) (hnt : tool.timeoutMs = none) :
    (∀ m d, callToolHandler tools name rawArgs (.throwsUser m d) =
      .ok ⟨[Content.text m], some true⟩)
    ∧ (∀ m d, callToolHandler tools name rawArgs (.throwsOther m d) =
      .ok ⟨[Content.text (execFailedMsg name m)], some true⟩)
    ∧ (∀ (tools2 : List Tool) (name2 args2 : String) (exec : ExecOutcome),
      tools2.find? (fun t => t.name == name2) = none →
      callToolHandler tools2 name2 args2 exec =
        .error ⟨.methodNotFound, unknownToolMsg name2⟩)
    ∧ (∀ (tools2 : List Tool) (name2 args2 : String) (tool2 : Tool)
        (chk : String → Except String Unit) (msg : String) (exec : ExecOutcome),
      tools2.find? (fun t => t.name == name2) = some tool2 →
      tool2.paramsCheck = some chk → chk args2 = .error msg →
      callToolHandler tools2 name2 args2 exec =
        .error ⟨.invalidParams, invalidParamsMsg name2 msg⟩)
    ∧ (∀ (tools2 : List Tool) (name2 args2 : String) (tool2 : Tool)
        (exec : ExecOutcome),
      tools2.find? (fun t => t.name == name2) = some tool2 →
      tool2.paramsCheck = none →
      ∃ r, callToolHandler tools2 name2 args2 exec = .ok r)
    ∧ (∀ (tools2 : List Tool) (name2 args2 : String) (tool2 : Tool)
        (chk : String → Except String Unit) (exec : ExecOutcome),
      tools2.find? (fun t => t.name == name2) = some tool2 →
      tool2.paramsCheck = some chk → chk args2 = .ok () →
      ∃ r, callToolHandler tools2 name2 args2 exec = .ok r) := by
  refine ⟨?_, ?_, ?_, ?_, ?_, ?_⟩
  · intro m d
    rw [callToolHandler_found _ hfind hnp]
    simp [runExec, raceWithTimeout, hnt]
  · intro m d
    rw [callToolHandler_found _ hfind hnp]
    simp [runExec, raceWithTimeout, hnt]
  · intro tools2 name2 args2 exec hnone
    simp [callToolHandler, hnone]
  · intro tools2 name2 args2 tool2 chk msg exec hf hc he
    simp [callToolHandler, hf, hc, he]
  · intro tools2 name2 args2 tool2 exec hf hc
    exact ⟨_, callToolHandler_found _ hf hc⟩
  · intro tools2 name2 args2 tool2 chk exec hf hc hok
    exact ⟨_, callToolHandler_found_valid _ hf hc hok⟩

/-- C2 witness: a `UserError` with message `"bad input"` thrown by the
`echo` tool becomes the flagged single-text-item result. -/
theorem c2_error_taxonomy_witness :
    callToolHandler [⟨"echo", none, none, none⟩] "echo" "\x7b\x7d"
      (.throwsUser "bad input" 1) =
      .ok ⟨[Content.text "bad input"], some true⟩ :=
  (c2_error_taxonomy [⟨"echo", none, none, none⟩] "echo" "\x7b\x7d"
    ⟨"echo", none, none, none⟩ (by rfl) (by rfl) (by rfl)).1 "bad input" 1

/-- C4 counterexample: the race guard `tool.timeoutMs ?` (FastMCP.ts line
1790) tests JavaScript truthiness, so a tool configured with
`timeoutMs: 0` runs with no race at all: its execute promise settling
after 5 ms (longer than the configured 0 ms) is returned normally, not as
the flagged "timed out" result the claim requires. -/
theorem c4_counterexample :
    callToolHandler [⟨"slow", none, some 0, none⟩] "slow" "\x7b\x7d"
      (.returns (.str "late") 5) =
      .ok ⟨[Content.text "late"], none⟩
    ∧ (⟨[Content.text "late"], none⟩ : ContentResult) ≠
      ⟨[Content.text (timeoutMsg "slow" 0)], some true⟩ := by
  refine ⟨rfl, ?_⟩
  intro h
  simpa using congrArg ContentResult.isError h

/-- C4 amended: for a tool with a non-zero `timeoutMs = T`, an execute
promise that takes longer than `T` milliseconds to settle yields a flagged
error result whose single text item is the timeout `UserError` message,
which contains `"timed out"`; a promise settling in less than `T` is
handled exactly as without a timeout (the result is returned normally);
for every outcome the handler answers `.ok`, so the timeout never surfaces
as a protocol-level failure that could close the session.  A configured
timeout of `0` is falsy and disables the race entirely, behaving exactly
like no timeout. -/
theorem c4_timeout (tools : List Tool) (name rawArgs : String) (tool : Tool)
    (T : Nat)
    (hfind : tools.find? (fun t => t.name == name) = some tool)
    (hnp : tool.paramsCheck = none) (ht : tool.timeoutMs = some T)
    (hpos : 0 < T) :
    (∀ exec : ExecOutcome, T < exec.duration →
      callToolHandler tools name rawArgs exec =
        .ok ⟨[Content.text (timeoutMsg name T)], some true⟩)
    ∧ (∃ p q, timeoutMsg name T = p ++ "timed out" ++ q)
    ∧ (∀ exec : ExecOutcome, exec.duration < T →
      callToolHandler tools name rawArgs exec = .ok (runExec name none exec))
    ∧ (∀ exec : ExecOutcome, ∃ r,
      callToolHandler tools name rawArgs exec = .ok r)
    ∧ (∀ (n : String) (exec : ExecOutcome),
      runExec n (some 0) exec = runExec n none exec) := by
  have hne : T ≠ 0 := Nat.pos_iff_ne_zero.mp hpos
  refine ⟨?_, ?_, ?_, ?_, ?_⟩
  · intro exec hlt
    rw [callToolHandler_found _ hfind hnp, ht]
    simp [runExec, raceWithTimeout, hlt, hne]
  · exact ⟨"Tool \x27" ++ name ++ "\x27 ",
      " after " ++ toString T ++
        "ms. Consider increasing timeoutMs or optimizing the tool implementation.",
      rfl⟩
  · intro exec hlt
    rw [callToolHandler_found _ hfind hnp, ht]
    have hnlt : ¬ T < exec.duration := by omega
    simp [runExec, raceWithTimeout, hnlt]
  · intro exec
    exact ⟨_, callToolHandler_found _ hfind hnp⟩
  · intro n exec
    simp [runExec, raceWithTimeout]

/-- C4 witness: the `slow` tool with a 100 ms timeout whose promise takes
150 ms yields the flagged timeout result, while a 50 ms run of the same
tool returning `"done"` is returned normally. -/
theorem c4_timeout_witness :
    callToolHandler [⟨"slow", none, some 100, none⟩] "slow" "\x7b\x7d"
      (.returns (.str "ok") 150) =
      .ok ⟨[Content.text (timeoutMsg "slow" 100)], some true⟩
    ∧ callToolHandler [⟨"slow", none, some 100, none⟩] "slow" "\x7b\x7d"
      (.returns (.str "done") 50) =
      .ok ⟨[Content.text "done"], none⟩ := by
  have h := c4_timeout [⟨"slow", none, some 100, none⟩] "slow" "\x7b\x7d"
    ⟨"slow", none, some 100, none⟩ 100 (by rfl) (by rfl) (by rfl) (by decide)
  exact ⟨h.1 (.returns (.str "ok") 150) (by decide),
    by rw [h.2.2.1 (.returns (.str "done") 50) (by decide)]; rfl⟩

/-- A tool whose access predicate rejects every auth context. -/
def adminToolPred : String → Bool := fun _ => false

/-- `admin-tool`, registered with the always-rejecting predicate. -/
def adminTool : Tool := ⟨"admin-tool", none, none, some adminToolPred⟩

/-- `public-tool`, registered without an access predicate. -/
def publicTool : Tool := ⟨"public-tool", none, none, none⟩

/-- C3 counterexample: the stdio branch of `FastMCP.start` hands the
session the unfiltered registry (`tools: this.#tools`, FastMCP.ts line
2079), so `admin-tool` — whose predicate rejects the auth context
`"user"` — is nonetheless in the session's tool list, refuting
"a tool with access predicate P is visible and callable if and only if
P(authContext) is true". -/
theorem c3_counterexample :
    adminTool.canAccess = some adminToolPred
    ∧ adminToolPred "user" = false
    ∧ (startStdioSessionTools [adminTool] (some "user")).map Tool.name =
      ["admin-tool"]
    ∧ ¬ (("admin-tool" ∈
        (startStdioSessionTools [adminTool] (some "user")).map Tool.name) ↔
      adminToolPred "user" = true) := by
  refine ⟨rfl, rfl, rfl, ?_⟩
  intro h
  have : adminToolPred "user" = true :=
    h.mp (by simp [startStdioSessionTools, adminTool])
  simp [adminToolPred] at this

/-- C3 amended: for sessions built by `FastMCP.#createSession` (the HTTP
modes) with a present auth value `a`, a tool is in the session's tool set
iff it is registered and every declared access predicate accepts `a`
(tools without a predicate are always included); when the auth value is
absent, the registry is passed unfiltered without consulting any
predicate; and the stdio branch of `start` always passes the unfiltered
registry. -/
theorem c3_amended :
    (∀ (tools : List Tool) (a : String) (t : Tool),
      t ∈ createSessionTools tools (some a) ↔
        t ∈ tools ∧ ∀ p, t.canAccess = some p → p a = true)
    ∧ (∀ tools : List Tool, createSessionTools tools none = tools)
    ∧ (∀ (tools : List Tool) (auth : Option String),
      startStdioSessionTools tools auth = tools) := by
  refine ⟨?_, fun _ => rfl, fun _ _ => rfl⟩
  intro tools a t
  simp only [createSessionTools, List.mem_filter]
  constructor
  · rintro ⟨hmem, hacc⟩
    refine ⟨hmem, ?_⟩
    intro p hp
    rw [hp] at hacc
    exact hacc
  · rintro ⟨hmem, hall⟩
    refine ⟨hmem, ?_⟩
    cases hca : t.canAccess with
    | none => simp
    | some p => exact hall p hca

/-- C3 amended witness: with auth `"user"`, `#createSession` keeps
`public-tool` (no predicate) and the unauthenticated session keeps the
whole registry. -/
theorem c3_amended_witness :
    publicTool ∈ createSessionTools [publicTool, adminTool] (some "user")
    ∧ createSessionTools [publicTool, adminTool] none =
      [publicTool, adminTool] := by
  refine ⟨?_, c3_amended.2.1 [publicTool, adminTool]⟩
  refine (c3_amended.1 [publicTool, adminTool] "user" publicTool).mpr
    ⟨by simp, ?_⟩
  intro p hp
  simp [publicTool] at hp

/-- C5 counterexample: splitting the template and URI on `/` and aligning
whole-segment placeholders positionally — the matching mechanism the claim
describes, implemented verbatim in `FastMCP.embedded` (FastMCP.ts lines
1981-2002) — extracts the empty argument map for template
`file:///logs/\x7bname\x7d.log` against `file:///logs/app.log`, because
the placeholder `\x7bname\x7d.log` does not span a whole `/`-segment; it
does not produce the claimed `name = "app"`.  The read-resource handler's
actual matcher (the `uri-templates` dependency, modelled by
`uriTemplateFromUri`) does extract `name = "app"`, so the handler does not
match by the claimed positional `/`-splitting. -/
theorem c5_counterexample :
    embeddedExtractParams "file:///logs/\x7bname\x7d.log"
      "file:///logs/app.log" = some []
    ∧ uriTemplateFromUri "file:///logs/\x7bname\x7d.log"
      "file:///logs/app.log" = some [("name", "app")]
    ∧ some ([] : List (String × String)) ≠ some [("name", "app")] := by
  exact ⟨by decide, by decide, by decide⟩

/-- C5 amended: when a read-resource URI matches no exactly-registered
resource, the handler matches it against each registered template with the
`uri-templates` matcher (RFC 6570, not positional `/`-splitting — that
mechanism is used only by `FastMCP.embedded` and extracts a placeholder
only when it spans a whole `/`-segment); in particular, for template
`file:///logs/\x7bname\x7d.log`, reading `file:///logs/app.log` invokes
the template's load with the argument map `name = "app"` and returns
content whose URI equals the requested URI. -/
theorem c5_amended :
    readResourceDispatch []
      [⟨"file:///logs/\x7bname\x7d.log", "Application Logs"⟩]
      "file:///logs/app.log" none =
      .ok (.template [("name", "app")] "file:///logs/app.log") := by
  rfl

/-- C6 counterexample: `closed` and `error` are not terminal.  `close()`
on a never-connected session sets `closed`, after which `connect` — whose
already-connected guard only fires when a transport is bound — moves the
state back to `connecting` and then `ready`.  Likewise after a failed
connect (state `error`, transport bound), `close()` unbinds the transport
through the protocol engine's `onclose`, and a further `connect` again
reaches `ready`.  So "once the state is 'error' or 'closed' no operation
returns it to 'connecting' or 'ready'" fails as stated. -/
theorem c6_counterexample :
    (runOps initialSession [SessOp.close]).1.connectionState = ConnState.closed
    ∧ runOps initialSession [SessOp.close, SessOp.connect true] =
      (⟨ConnState.ready, true⟩,
        [ConnState.closed, ConnState.connecting, ConnState.ready])
    ∧ runOps initialSession
        [SessOp.connect false, SessOp.close, SessOp.connect true] =
      (⟨ConnState.ready, true⟩,
        [ConnState.connecting, ConnState.error, ConnState.closed,
          ConnState.connecting, ConnState.ready]) := by
  exact ⟨by decide, by decide, by decide⟩

/-- C6 amended: within a single connect call the state moves forward only —
a successful connect on an unbound session assigns exactly `connecting`
then `ready` (so `ready` is entered exactly once per successful connect),
a failed one `connecting` then `error`.  While the transport remains bound,
i.e. under any sequence of further connect attempts with no intervening
close, an `error` or `closed` state is preserved: each such connect throws
`Server is already connected` without touching the state.  But `close()`
unbinds the transport, so neither `error` nor `closed` is terminal:
from any state whatsoever, `close()` followed by a successful `connect()`
ends in `ready`. -/
theorem c6_amended :
    (∀ s : SessionState, s.transportBound = false →
      (stepOp s (SessOp.connect true)).2 =
        [ConnState.connecting, ConnState.ready]
      ∧ (stepOp s (SessOp.connect true)).2.count ConnState.ready = 1
      ∧ (stepOp s (SessOp.connect false)).2 =
        [ConnState.connecting, ConnState.error])
    ∧ (∀ (s : SessionState) (attempts : List Bool), s.transportBound = true →
      runOps s (attempts.map SessOp.connect) = (s, []))
    ∧ (∀ s : SessionState,
      stepOp s SessOp.close = (⟨ConnState.closed, false⟩, [ConnState.closed]))
    ∧ (∀ s : SessionState,
      (runOps s [SessOp.close, SessOp.connect true]).1 =
        ⟨ConnState.ready, true⟩) := by
  refine ⟨?_, ?_, ?_, ?_⟩
  · intro s hs
    simp [stepOp, hs]
  · intro s attempts hb
    induction attempts with
    | nil => rfl
    | cons ok rest ih =>
      have hstep : stepOp s (SessOp.connect ok) = (s, []) := by
        simp [stepOp, hb]
      simp only [List.map_cons, runOps, hstep, ih]
      rfl
  · intro s
    rfl
  · intro s
    rfl

/-- C6 amended witness: on the errored, transport-bound session, two more
connect attempts throw and leave the state untouched, while
close-then-reconnect ends in `ready`. -/
theorem c6_amended_witness :
    (stepOp initialSession (SessOp.connect true)).2 =
      [ConnState.connecting, ConnState.ready]
    ∧ runOps ⟨ConnState.error, true⟩
        ([true, false].map SessOp.connect) = (⟨ConnState.error, true⟩, [])
    ∧ (runOps ⟨ConnState.error, true⟩
        [SessOp.close, SessOp.connect true]).1 = ⟨ConnState.ready, true⟩ :=
  ⟨(c6_amended.1 initialSession rfl).1,
    c6_amended.2.1 ⟨ConnState.error, true⟩ [true, false] rfl,
    c6_amended.2.2.2 ⟨ConnState.error, true⟩⟩

/-- C7: a session created in stateless-HTTP mode is never added to the
server's active-session list — after any number of stateless requests
starting from an empty list the tracked count is still zero — while in
session-affinity mode `onConnect` appends the session (raising the count
by one) and `onClose` removes it, restoring the exact pre-connect
list. -/
theorem c7_session_tracking :
    (∀ reqs : List Nat, statelessHandleRequests [] reqs = [])
    ∧ (∀ (l : List Nat) (s : Nat), s ∉ l →
      affinityOnClose (affinityOnConnect l s) s = l)
    ∧ (∀ (l : List Nat) (s : Nat),
      (affinityOnConnect l s).length = l.length + 1) := by
  refine ⟨?_, ?_, ?_⟩
  · intro reqs
    induction reqs with
    | nil => rfl
    | cons r rest ih => simpa [statelessHandleRequests, statelessHandleRequest]
        using ih
  · intro l s hs
    induction l with
    | nil => simp [affinityOnConnect, affinityOnClose]
    | cons x xs ih =>
      simp only [List.mem_cons, not_or] at hs
      simp only [affinityOnConnect, List.cons_append, affinityOnClose]
      rw [if_neg (fun h => hs.1 h.symm)]
      simpa [affinityOnConnect] using ih hs.2
  · intro l s
    simp [affinityOnConnect]

/-- C7 witness: three stateless requests leave the tracked list empty, and
in affinity mode connecting then disconnecting session 9 restores the
pre-connect list `[7]`. -/
theorem c7_session_tracking_witness :
    statelessHandleRequests [] [1, 2, 3] = []
    ∧ affinityOnClose (affinityOnConnect [7] 9) 9 = [7] :=
  ⟨c7_session_tracking.1 [1, 2, 3],
    c7_session_tracking.2.1 [7] 9 (by decide)⟩

/-- C8 counterexample: the stateless flag is resolved with JavaScript `||`
(FastMCP.ts lines 2425-2429), so the explicit start-up option
`stateless: false` is falsy and is overridden by the command-line flag
`--stateless true` — the resolved configuration is stateless, refuting the
claimed "explicit start-up option > command-line flag" precedence. -/
theorem c8_counterexample :
    parseRuntimeConfig (some ⟨none, some 9000, none, none, some false⟩)
        ["--transport", "httpStream", "--stateless", "true"] emptyEnv =
      RuntimeConfig.httpStream "/mcp" "localhost" (some 9000) true
    ∧ RuntimeConfig.httpStream "/mcp" "localhost" (some 9000) true ≠
      RuntimeConfig.httpStream "/mcp" "localhost" (some 9000) false := by
  exact ⟨by decide, by decide⟩

/-- C8 amended: transport type, port, endpoint and host are resolved by
the precedence explicit start-up option > command-line flag > environment
variable > built-in default (with an absent or empty-string value falling
through to the next stage), and the built-in defaults are endpoint
`"/mcp"`, port `8080` and host `"localhost"`; the stateless flag however
is resolved as a disjunction — it is set iff the explicit option is
`true`, or the CLI flag is the string `"true"`, or the environment
variable is the string `"true"` — so an explicit `false` does not override
a CLI/environment `"true"`. -/
theorem c8_amended :
    parseRuntimeConfig (some ⟨some "httpStream", none, none, none, none⟩) []
        emptyEnv =
      RuntimeConfig.httpStream "/mcp" "localhost" (some 8080) false
    ∧ (∀ (e h : String) (p : Nat) (args : List String) (env : EnvVars),
      e ≠ "" → h ≠ "" →
      parseRuntimeConfig (some ⟨some "httpStream", some p, some e, some h,
          some true⟩) args env =
        RuntimeConfig.httpStream e h (jsParseInt (toString p)) true)
    ∧ (∀ (c : String) (envVal : Option String) (dflt : String), c ≠ "" →
      resolveStr none (some c) envVal dflt = c)
    ∧ (∀ (v : String) (dflt : String), v ≠ "" →
      resolveStr none none (some v) dflt = v)
    ∧ (∀ (dflt : String), resolveStr none none none dflt = dflt)
    ∧ (∀ (ov : Option Bool) (cli env : Option String),
      resolveStateless ov cli env =
        ((ov == some true) || (cli == some "true") || (env == some "true"))) := by
  refine ⟨by decide, ?_, ?_, ?_, ?_, ?_⟩
  · intro e h p args env he hh
    simp only [parseRuntimeConfig, Option.getD, resolvePort, Option.map]
    rw [resolveStr_explicit (by decide), resolveStr_explicit he,
      resolveStr_explicit hh, resolveStr_explicit (natToString_ne_empty p)]
    simp [resolveStateless]
  · intro c envVal dflt hc
    simp [resolveStr, jsTruthy, hc]
  · intro v dflt hv
    simp [resolveStr, jsTruthy, hv]
  · intro dflt
    simp [resolveStr, jsTruthy]
  · intro ov cli env
    match ov with
    | some true => simp [resolveStateless]
    | some false => simp [resolveStateless]
    | none => simp [resolveStateless]

/-- C8 amended witness: explicit endpoint `/api`, host `0.0.0.0`, port
`3000` and `stateless: true` win over contrary CLI flags and environment
variables. -/
theorem c8_amended_witness :
    parseRuntimeConfig
        (some ⟨some "httpStream", some 3000, some "/api", some "0.0.0.0",
          some true⟩)
        ["--port", "1234", "--endpoint", "/other"]
        ⟨none, none, none, none, some "elsewhere"⟩ =
      RuntimeConfig.httpStream "/api" "0.0.0.0" (jsParseInt (toString 3000))
        true :=
  c8_amended.2.1 "/api" "0.0.0.0" 3000
    ["--port", "1234", "--endpoint", "/other"]
    ⟨none, none, none, none, some "elsewhere"⟩ (by decide) (by decide)

/-- C9: a failed transport notification inside a tool's execution context
is swallowed: `reportProgress` and `streamContent` always resolve (never
reject) regardless of the notification outcome, they log exactly one
warning when and only when the notification failed, `streamContent` wraps
a single content item into a one-item array, and the call-tool handler's
result for a tool body that awaits `reportProgress` is identical whether
the underlying notification succeeded or failed — so a notification
failure never flags the result as an error and never fails the call. -/
theorem c9_notification_failures :
    (∀ (n : String) (r : Except String Unit),
      (reportProgressCall n r).2 = .ok ())
    ∧ (∀ (n : String) (c : Sum Content (List Content))
        (r : Except String Unit), (streamContentCall n c r).2.2 = .ok ())
    ∧ (∀ (n e : String), (reportProgressCall n (.error e)).1 =
      [s!"[FastMCP warning] Failed to report progress for tool \x27{n}\x27: {e}"])
    ∧ (∀ (n : String), (reportProgressCall n (.ok ())).1 = [])
    ∧ (∀ (n e : String) (c : Sum Content (List Content)),
      (streamContentCall n c (.error e)).2.1 =
        [s!"[FastMCP warning] Failed to stream content for tool \x27{n}\x27: {e}"])
    ∧ (∀ (n : String) (c : Sum Content (List Content)),
      (streamContentCall n c (.ok ())).2.1 = [])
    ∧ (∀ (n : String) (c : Content) (r : Except String Unit),
      (streamContentCall n (.inl c) r).1 = [c])
    ∧ (∀ (tools : List Tool) (name args : String)
        (body : Except String Unit → ExecOutcome) (r : Except String Unit),
      callToolHandler tools name args (body ((reportProgressCall name r).2)) =
        callToolHandler tools name args (body (.ok ()))) := by
  refine ⟨?_, ?_, ?_, ?_, ?_, ?_, ?_, ?_⟩
  · intro n r
    cases r <;> rfl
  · intro n c r
    cases r <;> cases c <;> rfl
  · intro n e; rfl
  · intro n; rfl
  · intro n e c; cases c <;> rfl
  · intro n c; cases c <;> rfl
  · intro n c r; cases r <;> rfl
  · intro tools name args body r
    have h : (reportProgressCall name r).2 = .ok () := by cases r <;> rfl
    rw [h]

/-- C10: when MIME-type sniffing detects nothing, the image and audio
content constructors still succeed, returning the base64-encoded bytes
with the hard-coded fallback MIME type — `"image/png"` for images and
`"audio/mpeg"` for audio — after emitting the "may not be a valid"
warning; `base64Encode` agrees with `Buffer.toString("base64")` on the
RFC 4648 vector `"Man"`. -/
theorem c10_mime_fallback :
    (∀ bytes : List Nat, imageContentCore none bytes =
      ([imageWarnMsg "unknown"],
        Content.image (base64Encode bytes) "image/png"))
    ∧ (∀ bytes : List Nat, audioContentCore none bytes =
      ([audioWarnMsg "unknown"],
        Content.audio (base64Encode bytes) "audio/mpeg"))
    ∧ base64Encode [77, 97, 110] = "TWFu" := by
  exact ⟨fun bytes => rfl, fun bytes => rfl, by decide⟩

end Claims

end FastMCPModel
